import Mathlib

/-
Verification of the launch-time JIT cache in `vllm/triton_utils/jit_cache.py`.

The development shallowly embeds the cache-and-dispatch engine:
`CacheLock`, `PreparedKernel` (construction with `_init_handles`, and
`__call__`), and `JitCache` (`calc_cache_index`, `_get_prepared_kernel`,
`_run_static`, `_run_dynamic`).  The external toolchain and driver
(compiler, `load_binary`, launcher, device queries) are opaque
collaborators, modelled as abstract data and function parameters; the
cache is a Python dict, modelled as an association list with
insertion-order-preserving overwrite.  Python exceptions become an
explicit error type; raise-sites that also print diagnostic data are
modelled by structured errors carrying the reported data.
-/

namespace TritonJitCache

/-- Python-ish runtime values, as far as the cache engine inspects them:
`int`, `bool`, `float` are the supported selector-key types (`float`
carried by its repr string, since its numeric content is never
inspected); `str` stands for an unsupported value; `pynone` is `None`
(accepted for `pre_hook`); `gridTuple` is a concrete launch-grid tuple
and `gridFn` a callable grid resolver, referenced by an index into an
externally supplied environment (Python closures cannot live inside the
value type). -/
inductive Val : Type where
  | int (n : Int)
  | bool (b : Bool)
  | float (r : String)
  | str (s : String)
  | pynone
  | gridTuple (dims : List Int)
  | gridFn (idx : Nat)
  deriving Repr, DecidableEq

/-- Python `str(v)` for the values above.  `str(True) = "True"`,
`str(-3) = "-3"`, a float prints as its carried repr, a tuple prints with
Python's trailing-comma rule, a function prints an opaque tag. -/
def pyStr : Val → String
  | .int n => toString n
  | .bool b => if b then "True" else "False"
  | .float r => r
  | .str s => s
  | .pynone => "None"
  | .gridTuple dims =>
      "(" ++ String.intercalate ", " (dims.map toString) ++
        (if dims.length = 1 then ",)" else ")")
  | .gridFn i => "<function " ++ toString i ++ ">"

/-- `type(v) in [int, bool, float]` — the selector-key type constraint of
`_run_static` / `_run_dynamic`. -/
def isSupportedType : Val → Bool
  | .int _ => true
  | .bool _ => true
  | .float _ => true
  | _ => false

/-- Python `callable(v)` restricted to the values above. -/
def isCallable : Val → Bool
  | .gridFn _ => true
  | _ => false

/-- Keyword arguments: a string-keyed dict, modelled as an association
list (first binding wins on lookup). -/
abbrev Kwargs := List (String × Val)

/-- Dict lookup: `d[k]`, `none` when the key is absent (`KeyError`). -/
def alistLookup {α : Type} : List (String × α) → String → Option α
  | [], _ => none
  | (k, v) :: rest, key => if k = key then some v else alistLookup rest key

/-- Dict assignment `d[k] = v`: replaces in place when the key exists
(keeping its insertion position, like a Python dict), appends otherwise. -/
def alistSet {α : Type} : List (String × α) → String → α → List (String × α)
  | [], key, v => [(key, v)]
  | (k, w) :: rest, key, v =>
      if k = key then (key, v) :: rest else (k, w) :: alistSet rest key v

/-- `x in l` for lists of strings. -/
def strMem (x : String) : List String → Bool
  | [] => false
  | y :: rest => if y = x then true else strMem x rest

/-- Interpretation environment for callable grids: the closure with index
`i` maps the call's kwargs to a grid tuple. -/
abbrev GridEnv := Nat → Kwargs → List Int

/-- Python exceptions raised by the engine.  `staticLookupFailure` models
the `_run_static` miss path, which prints the missing key together with
`list(self.kernel_cache.keys())` and re-raises the `KeyError`: the
structured error carries exactly the reported data. -/
inductive PyErr : Type where
  | keyError (k : String)
  | assertionError
  | typeError (msg : String)
  | indexError
  | runtimeError (msg : String)
  | attributeError (attr : String)
  | outOfResources (requested available : Nat) (name : String)
  | staticLookupFailure (key : String) (cachedKeys : List String)
  deriving Repr, DecidableEq

/-- One parameter descriptor of the wrapped kernel (`self.fn.params`). -/
structure Param where
  name : String
  is_constexpr : Bool
  is_const : Bool
  deriving Repr, DecidableEq

/-- The opaque compiled-kernel object returned by `self.fn.run(...,
warmup=True)`: `shared` is `kernel.metadata.shared`, `tag` abstracts the
binary identity (`kernel.kernel` / the handle `load_binary` yields),
`packed_metadata` abstracts `kernel.packed_metadata`. -/
structure CompiledKernel where
  name : String
  shared : Nat
  tag : Nat
  packed_metadata : Nat
  deriving Repr, DecidableEq

/-- Everything `PreparedKernel.__init__` (including `_init_handles`)
stores.  `module`/`function`/`n_regs`/`n_spills` come from the opaque
`load_binary`, modelled as returning the binary tag and zero counts. -/
structure PreparedKernel where
  grid_obj : Val
  grid_is_callable : Bool
  grid_size : Nat
  cache_launch_grid : Bool
  concrete_grid : Option (Int × Int × Int)
  kernel : CompiledKernel
  launch_metadata : Nat
  launch_enter_hook : Option Nat
  launch_exit_hook : Option Nat
  non_const_arg_names : List String
  device : Nat
  stream : Nat
  dev_max_shared : Nat
  module : Nat
  function : Nat
  n_regs : Nat
  n_spills : Nat
  cache_key : String
  deriving Repr, DecidableEq

/-- `PreparedKernel.__init__` followed by `_init_handles`.

Mirrors the source order: the static grid (when `cache_launch_grid`) is
resolved from `grid_example` first — `grid_example[0]` raises
`IndexError` on an empty grid, missing dimensions default to `1` — then
`_init_handles` checks the shared-memory footprint.  NOTE the source bug
at the over-capacity branch: it evaluates `self.metadata.shared` while
building the `OutOfResources` exception, but `PreparedKernel` has no
`metadata` attribute, so what is actually raised is
`AttributeError("metadata")`, never `OutOfResources`.  `load_binary` is
only reached when the check passes. -/
def PreparedKernel.make (grid_obj : Val) (grid_example : List Int)
    (cache_launch_grid : Bool) (kernel : CompiledKernel)
    (launch_metadata : Nat) (launch_enter_hook launch_exit_hook : Option Nat)
    (non_const_arg_names : List String) (cache_key : String)
    (device stream : Nat) (dev_max_shared : Nat) :
    Except PyErr PreparedKernel :=
  let concreteStep : Except PyErr (Option (Int × Int × Int)) :=
    match cache_launch_grid, grid_example with
    | false, _ => .ok none
    | true, [] => .error .indexError
    | true, [g0] => .ok (some (g0, 1, 1))
    | true, [g0, g1] => .ok (some (g0, g1, 1))
    | true, g0 :: g1 :: g2 :: _ => .ok (some (g0, g1, g2))
  match concreteStep with
  | .error e => .error e
  | .ok cg =>
    if kernel.shared > dev_max_shared then
      .error (.attributeError "metadata")
    else
      .ok {
        grid_obj := grid_obj
        grid_is_callable := isCallable grid_obj
        grid_size := grid_example.length
        cache_launch_grid := cache_launch_grid
        concrete_grid := cg
        kernel := kernel
        launch_metadata := launch_metadata
        launch_enter_hook := launch_enter_hook
        launch_exit_hook := launch_exit_hook
        non_const_arg_names := non_const_arg_names
        device := device
        stream := stream
        dev_max_shared := dev_max_shared
        module := kernel.tag
        function := kernel.tag
        n_regs := 0
        n_spills := 0
        cache_key := cache_key
      }

/-- What `self.run(...)` (the driver's launch primitive) receives in
`PreparedKernel.__call__`: the three grid dimensions, stream, loaded
function handle, both metadata blobs, the hooks, and the ordered
non-constexpr argument values. -/
structure LaunchResult where
  grid0 : Int
  grid1 : Int
  grid2 : Int
  stream : Nat
  function : Nat
  packed_metadata : Nat
  launch_metadata : Nat
  enter_hook : Option Nat
  exit_hook : Option Nat
  args : List Val
  deriving Repr, DecidableEq

/-- The extraction loop of `__call__`: current values of the non-const
parameters, in the order fixed at preparation time (`KeyError` when one
is missing from the call's kwargs). -/
def getVals : List String → Kwargs → Except PyErr (List Val)
  | [], _ => .ok []
  | n :: rest, kwargs =>
    match alistLookup kwargs n with
    | none => .error (.keyError n)
    | some v =>
      match getVals rest kwargs with
      | .error e => .error e
      | .ok vs => .ok (v :: vs)

/-- Pad a resolved grid to three dimensions (`grid[0]` raises
`IndexError` when empty; dimensions 2 and 3 default to 1). -/
def padGrid : List Int → Except PyErr (Int × Int × Int)
  | [] => .error .indexError
  | [a] => .ok (a, 1, 1)
  | [a, b] => .ok (a, b, 1)
  | a :: b :: c :: _ => .ok (a, b, c)

/-- `PreparedKernel.__call__` (kwargs-only; `assert len(args) == 0` holds
by construction of the embedding).  Non-const values are extracted first;
then the grid comes from the memoized `concrete_grid` when
`cache_launch_grid` is set, else it is re-resolved from the call-time
`kwargs["grid"]` using the construction-time callability flag.  The
launch itself is opaque: the result records exactly what `self.run`
receives. -/
def PreparedKernel.call (pk : PreparedKernel) (genv : GridEnv)
    (kwargs : Kwargs) : Except PyErr LaunchResult :=
  match getVals pk.non_const_arg_names kwargs with
  | .error e => .error e
  | .ok vals =>
    let gridStep : Except PyErr (Int × Int × Int) :=
      if pk.cache_launch_grid then
        match pk.concrete_grid with
        | some t => .ok t
        | none => .error (.typeError "cannot unpack non-iterable NoneType object")
      else
        match alistLookup kwargs "grid" with
        | none => .error (.keyError "grid")
        | some gv =>
          if pk.grid_is_callable then
            match gv with
            | .gridFn i => padGrid (genv i kwargs)
            | _ => .error (.typeError "object is not callable")
          else
            match gv with
            | .gridTuple dims => padGrid dims
            | _ => .error (.typeError "object is not subscriptable")
    match gridStep with
    | .error e => .error e
    | .ok (g0, g1, g2) =>
      .ok {
        grid0 := g0
        grid1 := g1
        grid2 := g2
        stream := pk.stream
        function := pk.function
        packed_metadata := pk.kernel.packed_metadata
        launch_metadata := pk.launch_metadata
        enter_hook := pk.launch_enter_hook
        exit_hook := pk.launch_exit_hook
        args := vals
      }

/-- `PreparedKernel.get_key`. -/
def PreparedKernel.get_key (pk : PreparedKernel) : String :=
  pk.cache_key

/-- The `CacheLock`: a named boolean latch. -/
structure CacheLock where
  is_locked : Bool
  id : String
  deriving Repr, DecidableEq

/-- `CacheLock.__init__`: freshly constructed locks start unlocked. -/
def CacheLock.make (id : String) : CacheLock :=
  { is_locked := false, id := id }

/-- `CacheLock.lock`. -/
def CacheLock.lock (l : CacheLock) : CacheLock :=
  { l with is_locked := true }

/-- `CacheLock.unlock`. -/
def CacheLock.unlock (l : CacheLock) : CacheLock :=
  { l with is_locked := false }

/-- The accumulator loop of `calc_cache_index`: `cache_key = ""` then
`cache_key += str(kwargs[name])` for each name in `check_keys` order
(`KeyError` when a selector key is absent from the kwargs). -/
def calc_cache_index_from (check_keys : List String) (acc : String)
    (kwargs : Kwargs) : Except PyErr String :=
  match check_keys with
  | [] => .ok acc
  | k :: rest =>
    match alistLookup kwargs k with
    | none => .error (.keyError k)
    | some v => calc_cache_index_from rest (acc ++ pyStr v) kwargs

/-- `calc_cache_index` as defined inside `JitCache.__init__`. -/
def calc_cache_index (check_keys : List String) (kwargs : Kwargs) :
    Except PyErr String :=
  calc_cache_index_from check_keys "" kwargs

/-- `self.cache_index_func`: `calc_cache_index`, replaced by the constant
`"_default_"` function when `check_keys` is empty. -/
def cache_index_func (check_keys : List String) (kwargs : Kwargs) :
    Except PyErr String :=
  if check_keys.length = 0 then .ok "_default_"
  else calc_cache_index check_keys kwargs

/-- The selector-key type-check loop of both run modes:
`for key in self.check_keys: assert type(kwargs[key]) in [int, bool,
float]` (lookup of a missing key raises `KeyError` first). -/
def check_key_types : List String → Kwargs → Except PyErr Unit
  | [], _ => .ok ()
  | k :: rest, kwargs =>
    match alistLookup kwargs k with
    | none => .error (.keyError k)
    | some v =>
      if isSupportedType v then check_key_types rest kwargs
      else .error .assertionError

/-- `assert "pre_hook" not in kwargs or kwargs["pre_hook"] is None`. -/
def pre_hook_check (kwargs : Kwargs) : Except PyErr Unit :=
  match alistLookup kwargs "pre_hook" with
  | none => .ok ()
  | some .pynone => .ok ()
  | some _ => .error .assertionError

/-- Classification of the kernel's parameters: names of those not marked
`is_constexpr` or `is_const` (the runtime arguments). -/
def non_const_arg_names (params : List Param) : List String :=
  (params.filter (fun p => !(p.is_constexpr || p.is_const))).map (fun p => p.name)

/-- The construction-time data of a `JitCache` plus its opaque external
collaborators: the parameter descriptors, selector keys, static-grid
flag, and functions standing for `fn.run` (the compile), the
`launch_metadata` query, the driver's device/stream queries and the
device's `max_shared_mem` property, and the `CompiledKernel` hooks. -/
structure JitCacheCfg where
  params : List Param
  check_keys : List String
  cache_launch_grid : Bool
  run_compile : Kwargs → CompiledKernel
  launch_meta : CompiledKernel → List Int → Nat → Nat
  device : Nat
  stream_of : Nat → Nat
  max_shared : Nat
  launch_enter_hook : Option Nat
  launch_exit_hook : Option Nat

/-- Resolve `kwargs["grid"]`: invoke it when callable, use it directly
otherwise (`KeyError` when absent, `TypeError` when it is neither a grid
tuple nor a callable). -/
def resolve_grid (genv : GridEnv) (kwargs : Kwargs) :
    Except PyErr (List Int) :=
  match alistLookup kwargs "grid" with
  | none => .error (.keyError "grid")
  | some gv =>
    match gv with
    | .gridFn i => .ok (genv i kwargs)
    | .gridTuple dims => .ok dims
    | _ => .error (.typeError "grid object is neither callable nor a tuple")

/-- `JitCache._get_prepared_kernel`.  Faithful to the source order:
`kwargs["warmup"] = True` (on the callee's own dict — `**kwargs` copies,
so the caller's dict is untouched), then `self.fn.run(**kwargs)` (the
compile), then the check that no selector key names a non-constant
parameter (fatal `RuntimeError`), then grid resolution, device/stream
capture, the `launch_metadata` query, the cache-key computation on the
warmup-augmented kwargs, and finally the `PreparedKernel` construction. -/
def get_prepared_kernel (cfg : JitCacheCfg) (genv : GridEnv)
    (kwargs : Kwargs) : Except PyErr PreparedKernel :=
  let kwargs2 := alistSet kwargs "warmup" (Val.bool true)
  let kernel := cfg.run_compile kwargs2
  if (non_const_arg_names cfg.params).any
      (fun x => strMem x cfg.check_keys) then
    .error (.runtimeError "check_keys must only contain parameters marked as tl.constexpr (non-constants will be updated in all cases).")
  else
    match resolve_grid genv kwargs2 with
    | .error e => .error e
    | .ok grid =>
      let stream := cfg.stream_of cfg.device
      let lm := cfg.launch_meta kernel grid stream
      match alistLookup kwargs2 "grid" with
      | none => .error (.keyError "grid")
      | some grid_obj =>
        match cache_index_func cfg.check_keys kwargs2 with
        | .error e => .error e
        | .ok key =>
          PreparedKernel.make grid_obj grid cfg.cache_launch_grid kernel
            lm cfg.launch_enter_hook cfg.launch_exit_hook
            (non_const_arg_names cfg.params) key cfg.device stream
            cfg.max_shared

/-- The JIT-cache mapping CacheKey → PreparedInvocation. -/
abbrev Cache := List (String × PreparedKernel)

deriving instance DecidableEq for Except

/-- Observable outcome of one `invoke`: the result (or raised error), the
cache mapping afterwards, how many compiles (`fn.run` calls via
`_get_prepared_kernel`) the call made, and whether the advisory
duplicate-key warning of the static mode was emitted. -/
structure RunOutcome where
  result : Except PyErr LaunchResult
  cache : Cache
  compiles : Nat
  dupWarning : Bool
  deriving Repr, DecidableEq

/-- The common tail of `_run_static`: `try` the lookup under
`cache_index_func(kwargs)` and call the found variant; on `KeyError`
report the missing key with the full current key list and re-raise. -/
def static_lookup_and_call (cfg : JitCacheCfg) (genv : GridEnv)
    (cache : Cache) (kwargs : Kwargs) (compiles : Nat) (warned : Bool) :
    RunOutcome :=
  match cache_index_func cfg.check_keys kwargs with
  | .error e => ⟨.error e, cache, compiles, warned⟩
  | .ok key =>
    match alistLookup cache key with
    | some pk => ⟨pk.call genv kwargs, cache, compiles, warned⟩
    | none =>
      ⟨.error (.staticLookupFailure key (cache.map Prod.fst)), cache,
        compiles, warned⟩

/-- `JitCache._run_static` (kwargs-only, so `len(args) == 0` holds by
construction).  While the lock is unlocked: type-check the selector
values, compile via `_get_prepared_kernel`, note the advisory warning
when the derived key is already cached, and overwrite the entry; in all
cases fall through to the lookup-and-call tail. -/
def run_static (cfg : JitCacheCfg) (genv : GridEnv) (locked : Bool)
    (cache : Cache) (kwargs : Kwargs) : RunOutcome :=
  match pre_hook_check kwargs with
  | .error e => ⟨.error e, cache, 0, false⟩
  | .ok _ =>
    if locked then
      static_lookup_and_call cfg genv cache kwargs 0 false
    else
      match check_key_types cfg.check_keys kwargs with
      | .error e => ⟨.error e, cache, 0, false⟩
      | .ok _ =>
        match get_prepared_kernel cfg genv kwargs with
        | .error e => ⟨.error e, cache, 1, false⟩
        | .ok pk =>
          let warned := (alistLookup cache pk.get_key).isSome
          static_lookup_and_call cfg genv
            (alistSet cache pk.get_key pk) kwargs 1 warned

/-- `JitCache._run_dynamic` (kwargs-only).  `try` the lookup under the
derived key — a `KeyError` raised by the key computation itself escapes
via the handler's own re-computation, so it propagates unchanged — and
on a miss: type-check the selector values, compile, insert under the new
variant's own key, then call the new variant. -/
def run_dynamic (cfg : JitCacheCfg) (genv : GridEnv) (cache : Cache)
    (kwargs : Kwargs) : RunOutcome :=
  match pre_hook_check kwargs with
  | .error e => ⟨.error e, cache, 0, false⟩
  | .ok _ =>
    match cache_index_func cfg.check_keys kwargs with
    | .error e => ⟨.error e, cache, 0, false⟩
    | .ok key =>
      match alistLookup cache key with
      | some pk => ⟨pk.call genv kwargs, cache, 0, false⟩
      | none =>
        match check_key_types cfg.check_keys kwargs with
        | .error e => ⟨.error e, cache, 0, false⟩
        | .ok _ =>
          match get_prepared_kernel cfg genv kwargs with
          | .error e => ⟨.error e, cache, 1, false⟩
          | .ok pk =>
            ⟨pk.call genv kwargs, alistSet cache pk.get_key pk, 1, false⟩

/-- `JitCache.run` dispatch as selected in `__init__`: with no lock the
engine is in dynamic mode; with a lock it is in static mode and reads
the lock's state at call time. -/
def invoke (cfg : JitCacheCfg) (cache_lock : Option CacheLock)
    (genv : GridEnv) (cache : Cache) (kwargs : Kwargs) : RunOutcome :=
  match cache_lock with
  | none => run_dynamic cfg genv cache kwargs
  | some l => run_static cfg genv l.is_locked cache kwargs

/-! ### Helper lemmas -/

theorem alistLookup_set_self {α : Type} (d : List (String × α)) (k : String)
    (v : α) : alistLookup (alistSet d k v) k = some v := by
  induction d with
  | nil => simp [alistSet, alistLookup]
  | cons hd tl ih =>
    obtain ⟨k', w⟩ := hd
    by_cases h : k' = k
    · simp [alistSet, alistLookup, h]
    · simp [alistSet, alistLookup, h, ih]

theorem alistLookup_set_ne {α : Type} (d : List (String × α))
    (k k' : String) (v : α) (h : k' ≠ k) :
    alistLookup (alistSet d k v) k' = alistLookup d k' := by
  have h' : ¬ k = k' := fun hh => h hh.symm
  induction d with
  | nil =>
    simp [alistSet, alistLookup, h']
  | cons hd tl ih =>
    obtain ⟨k₀, w⟩ := hd
    by_cases h₀ : k₀ = k
    · subst h₀
      simp [alistSet, alistLookup, h']
    · simp only [alistSet, if_neg h₀]
      by_cases h₁ : k₀ = k'
      · simp [alistLookup, h₁]
      · simp [alistLookup, h₁, ih]

theorem strMem_eq_true_iff_mem (x : String) (l : List String) :
    strMem x l = true ↔ x ∈ l := by
  induction l with
  | nil => simp [strMem]
  | cons y rest ih =>
    by_cases h : y = x
    · subst h; simp [strMem]
    · have h' : ¬ x = y := fun hh => h hh.symm
      simp [strMem, h, h', ih]

theorem calc_cache_index_from_agree (ck : List String) (acc : String)
    (kw1 kw2 : Kwargs)
    (h : ∀ k, k ∈ ck → alistLookup kw1 k = alistLookup kw2 k) :
    calc_cache_index_from ck acc kw1 = calc_cache_index_from ck acc kw2 := by
  induction ck generalizing acc with
  | nil => rfl
  | cons k rest ih =>
    have hk := h k (by simp)
    simp only [calc_cache_index_from, hk]
    cases alistLookup kw2 k with
    | none => rfl
    | some v => exact ih _ (fun k' hk' => h k' (by simp [hk']))

theorem cache_index_func_agree (ck : List String) (kw1 kw2 : Kwargs)
    (h : ∀ k, k ∈ ck → alistLookup kw1 k = alistLookup kw2 k) :
    cache_index_func ck kw1 = cache_index_func ck kw2 := by
  unfold cache_index_func
  by_cases hck : ck.length = 0
  · simp [hck]
  · simp only [hck, if_false]
    exact calc_cache_index_from_agree ck "" kw1 kw2 h

theorem cache_index_func_set_irrelevant (ck : List String) (kw : Kwargs)
    (name : String) (v : Val) (h : name ∉ ck) :
    cache_index_func ck (alistSet kw name v) = cache_index_func ck kw := by
  apply cache_index_func_agree
  intro k hk
  exact alistLookup_set_ne kw name k v (fun hh => h (hh ▸ hk))

/-- Concatenation of the string forms of a value list, the reference
shape for the derived cache key. -/
def strConcat : List Val → String
  | [] => ""
  | v :: vs => pyStr v ++ strConcat vs

theorem calc_cache_index_from_of_getVals (ck : List String) (kw : Kwargs)
    (vals : List Val) (hvals : getVals ck kw = .ok vals) (acc : String) :
    calc_cache_index_from ck acc kw = .ok (acc ++ strConcat vals) := by
  induction ck generalizing acc vals with
  | nil =>
    simp only [getVals] at hvals
    cases hvals
    simp [calc_cache_index_from, strConcat, String.append_empty]
  | cons k rest ih =>
    simp only [getVals] at hvals
    cases hlk : alistLookup kw k with
    | none => rw [hlk] at hvals; cases hvals
    | some v =>
      rw [hlk] at hvals
      cases hrest : getVals rest kw with
      | error e => rw [hrest] at hvals; cases hvals
      | ok vs =>
        rw [hrest] at hvals
        cases hvals
        simp only [calc_cache_index_from, hlk]
        rw [ih vs hrest (acc ++ pyStr v), strConcat,
          String.append_assoc]

theorem check_key_types_error_of_bad (ck : List String) (kw : Kwargs)
    (k : String) (v : Val) (hk : k ∈ ck) (hv : alistLookup kw k = some v)
    (hbad : isSupportedType v = false) :
    ∃ e, check_key_types ck kw = .error e := by
  induction ck with
  | nil => cases hk
  | cons k₀ rest ih =>
    simp only [check_key_types]
    cases hlk : alistLookup kw k₀ with
    | none => exact ⟨.keyError k₀, rfl⟩
    | some v₀ =>
      by_cases hsup : isSupportedType v₀ = true
      · simp only [hsup, if_true]
        rcases List.mem_cons.mp hk with h₀ | h₀
        · subst h₀
          rw [hv] at hlk
          cases hlk
          rw [hbad] at hsup
          cases hsup
        · exact ih h₀
      · simp only [Bool.not_eq_true] at hsup
        simp only [hsup]
        exact ⟨.assertionError, rfl⟩

theorem make_fields (grid_obj : Val) (grid_example : List Int)
    (clg : Bool) (kernel : CompiledKernel) (lm : Nat)
    (eh xh : Option Nat) (ncn : List String) (key : String)
    (device stream dms : Nat) (pk : PreparedKernel)
    (h : PreparedKernel.make grid_obj grid_example clg kernel lm eh xh
        ncn key device stream dms = .ok pk) :
    pk.cache_key = key ∧ pk.cache_launch_grid = clg ∧
      pk.non_const_arg_names = ncn ∧ pk.kernel = kernel := by
  unfold PreparedKernel.make at h
  cases clg with
  | false =>
    simp only at h
    by_cases hs : kernel.shared > dms
    · simp [hs] at h
    · simp only [hs, if_false] at h
      cases h
      exact ⟨rfl, rfl, rfl, rfl⟩
  | true =>
    match grid_example with
    | [] => simp at h
    | [g0] =>
      simp only at h
      by_cases hs : kernel.shared > dms
      · simp [hs] at h
      · simp only [hs, if_false] at h
        cases h
        exact ⟨rfl, rfl, rfl, rfl⟩
    | [g0, g1] =>
      simp only at h
      by_cases hs : kernel.shared > dms
      · simp [hs] at h
      · simp only [hs, if_false] at h
        cases h
        exact ⟨rfl, rfl, rfl, rfl⟩
    | g0 :: g1 :: g2 :: rest =>
      simp only at h
      by_cases hs : kernel.shared > dms
      · simp [hs] at h
      · simp only [hs, if_false] at h
        cases h
        exact ⟨rfl, rfl, rfl, rfl⟩

theorem get_prepared_kernel_key (cfg : JitCacheCfg) (genv : GridEnv)
    (kwargs : Kwargs) (pk : PreparedKernel)
    (h : get_prepared_kernel cfg genv kwargs = .ok pk) :
    cache_index_func cfg.check_keys
      (alistSet kwargs "warmup" (Val.bool true)) = .ok pk.cache_key := by
  unfold get_prepared_kernel at h
  by_cases hnc : (non_const_arg_names cfg.params).any
      (fun x => strMem x cfg.check_keys) = true
  · simp [hnc] at h
  · simp only [Bool.not_eq_true] at hnc
    simp only [hnc, Bool.false_eq_true, if_false] at h
    cases hg : resolve_grid genv (alistSet kwargs "warmup" (Val.bool true)) with
    | error e => rw [hg] at h; cases h
    | ok grid =>
      rw [hg] at h
      cases hgo : alistLookup (alistSet kwargs "warmup" (Val.bool true)) "grid" with
      | none => rw [hgo] at h; cases h
      | some grid_obj =>
        rw [hgo] at h
        cases hkey : cache_index_func cfg.check_keys
            (alistSet kwargs "warmup" (Val.bool true)) with
        | error e => rw [hkey] at h; cases h
        | ok key =>
          rw [hkey] at h
          rw [(make_fields _ _ _ _ _ _ _ _ _ _ _ _ _ h).1]

theorem get_prepared_kernel_key_no_warmup (cfg : JitCacheCfg)
    (genv : GridEnv) (kwargs : Kwargs) (pk : PreparedKernel)
    (h : get_prepared_kernel cfg genv kwargs = .ok pk)
    (hw : "warmup" ∉ cfg.check_keys) :
    cache_index_func cfg.check_keys kwargs = .ok pk.cache_key := by
  rw [← cache_index_func_set_irrelevant cfg.check_keys kwargs "warmup"
    (Val.bool true) hw]
  exact get_prepared_kernel_key cfg genv kwargs pk h

/-! ### Concrete fixtures (used by witnesses and counterexamples) -/

/-- A compiled kernel with no shared-memory footprint. -/
def kern0 : CompiledKernel := ⟨"kern", 0, 7, 3⟩

/-- Engine over a kernel with constexpr parameters `A`, `B` and runtime
parameter `x`, selector keys `["A", "B"]`, static launch grid. -/
def cfgAB : JitCacheCfg := {
  params := [⟨"A", true, false⟩, ⟨"B", true, false⟩, ⟨"x", false, false⟩]
  check_keys := ["A", "B"]
  cache_launch_grid := true
  run_compile := fun _ => kern0
  launch_meta := fun _ _ _ => 11
  device := 0
  stream_of := fun _ => 2
  max_shared := 100
  launch_enter_hook := none
  launch_exit_hook := none
}

/-- Engine with the single selector key `A`. -/
def cfgA : JitCacheCfg := { cfgAB with
  params := [⟨"A", true, false⟩, ⟨"x", false, false⟩]
  check_keys := ["A"]
}

/-- A grid-resolver environment. -/
def genv0 : GridEnv := fun _ _ => [4, 5]

/-- Call with selector values `A = 1`, `B = 23`. -/
def kwA1B23 : Kwargs :=
  [("A", .int 1), ("B", .int 23), ("x", .int 5), ("grid", .gridTuple [8])]

/-- Call with the distinct selector values `A = 12`, `B = 3`, whose
string concatenation collides with that of `kwA1B23`. -/
def kwA12B3 : Kwargs :=
  [("A", .int 12), ("B", .int 3), ("x", .int 6), ("grid", .gridTuple [8])]

/-- The `PreparedKernel` that `cfgAB` prepares for `kwA1B23`. -/
def pkFix : PreparedKernel := {
  grid_obj := .gridTuple [8]
  grid_is_callable := false
  grid_size := 1
  cache_launch_grid := true
  concrete_grid := some (8, 1, 1)
  kernel := kern0
  launch_metadata := 11
  launch_enter_hook := none
  launch_exit_hook := none
  non_const_arg_names := ["x"]
  device := 0
  stream := 2
  dev_max_shared := 100
  module := 7
  function := 7
  n_regs := 0
  n_spills := 0
  cache_key := "123"
}

/-- Call with selector values `A = 9`, `B = 99` (derived key `"999"`),
never warmed in the fixtures' caches. -/
def kwA1B23x999 : Kwargs :=
  [("A", .int 9), ("B", .int 99), ("x", .int 5), ("grid", .gridTuple [8])]

/-! ### Claims -/

/-- Claim C3: the derived CacheKey is the concatenation of the string
representations of the selector-key values in SelectorKeySet order;
calls with identical selector-key values derive identical keys; an empty
SelectorKeySet maps every call to the one sentinel key `"_default_"`. -/
theorem claim_C3 :
    (∀ (ck : List String) (kw : Kwargs) (vals : List Val),
        getVals ck kw = .ok vals → ck ≠ [] →
        cache_index_func ck kw = .ok (strConcat vals)) ∧
    (∀ (ck : List String) (kw1 kw2 : Kwargs),
        (∀ k, k ∈ ck → alistLookup kw1 k = alistLookup kw2 k) →
        cache_index_func ck kw1 = cache_index_func ck kw2) ∧
    (∀ kw : Kwargs, cache_index_func [] kw = .ok "_default_") := by
  refine ⟨?_, ?_, ?_⟩
  · intro ck kw vals hvals hck
    have hlen : ¬ ck.length = 0 := by
      cases ck with
      | nil => exact absurd rfl hck
      | cons a l => simp
    unfold cache_index_func calc_cache_index
    rw [if_neg hlen, calc_cache_index_from_of_getVals ck kw vals hvals "",
      String.empty_append]
  · exact cache_index_func_agree
  · intro kw
    rfl

/-- Witness for C3 at `check_keys = ["A", "B"]` with values `1`, `23`
(and the empty SelectorKeySet case). -/
theorem claim_C3_witness :
    cache_index_func ["A", "B"] kwA1B23 =
      .ok (strConcat [Val.int 1, Val.int 23]) ∧
    cache_index_func ["A", "B"] kwA1B23 =
      cache_index_func ["A", "B"]
        [("B", .int 23), ("A", .int 1), ("x", .int 9)] ∧
    cache_index_func [] kwA1B23 = .ok "_default_" :=
  ⟨claim_C3.1 ["A", "B"] kwA1B23 [Val.int 1, Val.int 23] (by decide)
      (by decide),
    claim_C3.2.1 ["A", "B"] kwA1B23
      [("B", .int 23), ("A", .int 1), ("x", .int 9)] (by decide),
    claim_C3.2.2 kwA1B23⟩

/-- Claim C9: string concatenation of selector values is not injective —
`(A, B) = (1, 23)` and `(A, B) = (12, 3)` both derive the key `"123"` —
so in dynamic mode the second call is served the PreparedInvocation
compiled under the first assignment (zero compiles, unchanged cache). -/
theorem claim_C9 :
    alistLookup kwA1B23 "A" ≠ alistLookup kwA12B3 "A" ∧
    cache_index_func cfgAB.check_keys kwA1B23 = .ok "123" ∧
    cache_index_func cfgAB.check_keys kwA12B3 = .ok "123" ∧
    alistLookup (run_dynamic cfgAB genv0 [] kwA1B23).cache "123" =
      some pkFix ∧
    run_dynamic cfgAB genv0 (run_dynamic cfgAB genv0 [] kwA1B23).cache
        kwA12B3 =
      ⟨pkFix.call genv0 kwA12B3,
        (run_dynamic cfgAB genv0 [] kwA1B23).cache, 0, false⟩ := by
  decide

/-- Counterexample to claim C1 as stated: in dynamic mode the selector
combination `(A, B) = (12, 3)` was never seen before (the only previous
call used `(1, 23)`), yet the call triggers zero compilations, because
the derived key `"123"` collides with the previous combination's key. -/
theorem claim_C1_counterexample :
    (alistLookup kwA12B3 "A", alistLookup kwA12B3 "B") ≠
      (alistLookup kwA1B23 "A", alistLookup kwA1B23 "B") ∧
    (run_dynamic cfgAB genv0 [] kwA1B23).compiles = 1 ∧
    (run_dynamic cfgAB genv0 (run_dynamic cfgAB genv0 [] kwA1B23).cache
        kwA12B3).compiles = 0 := by
  decide

/-- Claim C1 (amended: "selector-key combination" must be read as
"derived cache key"): in dynamic mode, a call whose derived key is
cached triggers zero compilations and invokes the cached
PreparedInvocation directly, leaving the cache unchanged; a call whose
derived key is absent (and which passes the type check and compiles
successfully) triggers exactly one compilation and inserts the new
PreparedInvocation under that same derived key, then invokes it. -/
theorem claim_C1 (cfg : JitCacheCfg) (genv : GridEnv) (cache : Cache)
    (kwargs : Kwargs) (key : String)
    (hpre : pre_hook_check kwargs = .ok ())
    (hkey : cache_index_func cfg.check_keys kwargs = .ok key)
    (hw : "warmup" ∉ cfg.check_keys) :
    (∀ pk, alistLookup cache key = some pk →
        run_dynamic cfg genv cache kwargs =
          ⟨pk.call genv kwargs, cache, 0, false⟩) ∧
    (alistLookup cache key = none →
        check_key_types cfg.check_keys kwargs = .ok () →
        ∀ pk, get_prepared_kernel cfg genv kwargs = .ok pk →
          pk.cache_key = key ∧
          run_dynamic cfg genv cache kwargs =
            ⟨pk.call genv kwargs, alistSet cache key pk, 1, false⟩) := by
  constructor
  · intro pk hpk
    simp only [run_dynamic, hpre, hkey, hpk]
  · intro hnone htypes pk hgp
    have hpkkey : pk.cache_key = key := by
      have h1 := get_prepared_kernel_key_no_warmup cfg genv kwargs pk hgp hw
      rw [hkey] at h1
      exact (Except.ok.injEq _ _).mp h1.symm
    refine ⟨hpkkey, ?_⟩
    simp only [run_dynamic, hpre, hkey, hnone, htypes, hgp,
      PreparedKernel.get_key, hpkkey]

/-- Witness for C1 (amended) in both branches: a first call on the empty
cache compiles once and inserts under `"123"`; repeating the same call
on the resulting cache compiles zero times and reuses the entry. -/
theorem claim_C1_witness :
    (pkFix.cache_key = "123" ∧
      run_dynamic cfgAB genv0 [] kwA1B23 =
        ⟨pkFix.call genv0 kwA1B23, alistSet [] "123" pkFix, 1, false⟩) ∧
    run_dynamic cfgAB genv0 [("123", pkFix)] kwA1B23 =
      ⟨pkFix.call genv0 kwA1B23, [("123", pkFix)], 0, false⟩ :=
  ⟨(claim_C1 cfgAB genv0 [] kwA1B23 "123" (by decide) (by decide)
        (by decide)).2 (by decide) (by decide) pkFix (by decide),
    (claim_C1 cfgAB genv0 [("123", pkFix)] kwA1B23 "123" (by decide)
        (by decide) (by decide)).1 pkFix (by decide)⟩

theorem static_lookup_and_call_compiles (cfg : JitCacheCfg)
    (genv : GridEnv) (cache : Cache) (kwargs : Kwargs) (n : Nat)
    (w : Bool) :
    (static_lookup_and_call cfg genv cache kwargs n w).compiles = n := by
  unfold static_lookup_and_call
  split
  · rfl
  · split <;> rfl

theorem static_lookup_and_call_cache (cfg : JitCacheCfg) (genv : GridEnv)
    (cache : Cache) (kwargs : Kwargs) (n : Nat) (w : Bool) :
    (static_lookup_and_call cfg genv cache kwargs n w).cache = cache := by
  unfold static_lookup_and_call
  split
  · rfl
  · split <;> rfl

/-- Claim C2: in static mode with the lock locked, `invoke` performs no
compilation and leaves the cache mapping unchanged; when the derived key
is absent from the cache the call fails with the fatal lookup error
carrying the missing key and the full list of currently cached keys. -/
theorem claim_C2 (cfg : JitCacheCfg) (l : CacheLock) (genv : GridEnv)
    (cache : Cache) (kwargs : Kwargs) (hl : l.is_locked = true) :
    (invoke cfg (some l) genv cache kwargs).compiles = 0 ∧
    (invoke cfg (some l) genv cache kwargs).cache = cache ∧
    (∀ key, pre_hook_check kwargs = .ok () →
        cache_index_func cfg.check_keys kwargs = .ok key →
        alistLookup cache key = none →
        (invoke cfg (some l) genv cache kwargs).result =
          .error (.staticLookupFailure key (cache.map Prod.fst))) := by
  have hrun : invoke cfg (some l) genv cache kwargs =
      run_static cfg genv true cache kwargs := by
    simp only [invoke, hl]
  rw [hrun]
  refine ⟨?_, ?_, ?_⟩
  · unfold run_static
    cases pre_hook_check kwargs with
    | error e => rfl
    | ok u => exact static_lookup_and_call_compiles cfg genv cache kwargs 0 false
  · unfold run_static
    cases pre_hook_check kwargs with
    | error e => rfl
    | ok u => exact static_lookup_and_call_cache cfg genv cache kwargs 0 false
  · intro key hp hk hn
    simp [run_static, hp, static_lookup_and_call, hk, hn]

/-- Witness for C2: with a locked lock, a key (`"999"`) never warmed
fails with the documented lookup error listing the cached key `"123"`,
with zero compiles and the cache unchanged. -/
theorem claim_C2_witness :
    (invoke cfgAB (some ⟨true, "g"⟩) genv0 [("123", pkFix)]
        kwA1B23x999).compiles = 0 ∧
    (invoke cfgAB (some ⟨true, "g"⟩) genv0 [("123", pkFix)]
        kwA1B23x999).cache = [("123", pkFix)] ∧
    (invoke cfgAB (some ⟨true, "g"⟩) genv0 [("123", pkFix)]
        kwA1B23x999).result =
      .error (.staticLookupFailure "999" ["123"]) :=
  ⟨(claim_C2 cfgAB ⟨true, "g"⟩ genv0 [("123", pkFix)] kwA1B23x999
      rfl).1,
    (claim_C2 cfgAB ⟨true, "g"⟩ genv0 [("123", pkFix)] kwA1B23x999
      rfl).2.1,
    (claim_C2 cfgAB ⟨true, "g"⟩ genv0 [("123", pkFix)] kwA1B23x999
      rfl).2.2 "999" (by decide) (by decide) (by decide)⟩

/-- Claim C7: in static mode while the lock is unlocked, a call whose
derived key already holds a cached PreparedInvocation does not fail: the
freshly compiled PreparedInvocation overwrites the entry, the advisory
duplicate-key diagnostic is emitted, and the call proceeds to invoke the
new PreparedInvocation. -/
theorem claim_C7 (cfg : JitCacheCfg) (l : CacheLock) (genv : GridEnv)
    (cache : Cache) (kwargs : Kwargs) (oldPk pk : PreparedKernel)
    (key : String)
    (hl : l.is_locked = false)
    (hpre : pre_hook_check kwargs = .ok ())
    (htypes : check_key_types cfg.check_keys kwargs = .ok ())
    (hgp : get_prepared_kernel cfg genv kwargs = .ok pk)
    (hw : "warmup" ∉ cfg.check_keys)
    (hkey : cache_index_func cfg.check_keys kwargs = .ok key)
    (hdup : alistLookup cache key = some oldPk) :
    invoke cfg (some l) genv cache kwargs =
      ⟨pk.call genv kwargs, alistSet cache key pk, 1, true⟩ := by
  have hpkkey : pk.cache_key = key := by
    have h1 := get_prepared_kernel_key_no_warmup cfg genv kwargs pk hgp hw
    rw [hkey] at h1
    exact (Except.ok.injEq _ _).mp h1.symm
  have hlkset : alistLookup (alistSet cache key pk) key = some pk :=
    alistLookup_set_self cache key pk
  simp only [invoke, hl, run_static, hpre, htypes, hgp, Bool.false_eq_true,
    if_false, static_lookup_and_call, PreparedKernel.get_key, hpkkey,
    hkey, hdup, hlkset, Option.isSome_some]

/-- Witness for C7: warming the same selector values twice — the second
static call compiles again, warns, overwrites `"123"`, and invokes. -/
theorem claim_C7_witness :
    invoke cfgAB (some ⟨false, "g"⟩) genv0 [("123", pkFix)] kwA1B23 =
      ⟨pkFix.call genv0 kwA1B23, alistSet [("123", pkFix)] "123" pkFix,
        1, true⟩ :=
  claim_C7 cfgAB ⟨false, "g"⟩ genv0 [("123", pkFix)] kwA1B23 pkFix pkFix
    "123" rfl (by decide) (by decide) (by decide) (by decide) (by decide)
    (by decide)

/-- Claim C10: a freshly constructed CacheLock is unlocked until its
`lock` method is called, so a static-mode engine sharing a fresh lock
starts in the warmup phase: a call (passing the type check and compiling
successfully) performs exactly one compilation and inserts the resulting
PreparedInvocation under its derived key. -/
theorem claim_C10 (lockId : String) (cfg : JitCacheCfg) (genv : GridEnv)
    (cache : Cache) (kwargs : Kwargs) (pk : PreparedKernel) (key : String)
    (hpre : pre_hook_check kwargs = .ok ())
    (htypes : check_key_types cfg.check_keys kwargs = .ok ())
    (hgp : get_prepared_kernel cfg genv kwargs = .ok pk)
    (hw : "warmup" ∉ cfg.check_keys)
    (hkey : cache_index_func cfg.check_keys kwargs = .ok key) :
    (CacheLock.make lockId).is_locked = false ∧
    (CacheLock.lock (CacheLock.make lockId)).is_locked = true ∧
    (invoke cfg (some (CacheLock.make lockId)) genv cache
        kwargs).compiles = 1 ∧
    alistLookup (invoke cfg (some (CacheLock.make lockId)) genv cache
        kwargs).cache key = some pk := by
  have hpkkey : pk.cache_key = key := by
    have h1 := get_prepared_kernel_key_no_warmup cfg genv kwargs pk hgp hw
    rw [hkey] at h1
    exact (Except.ok.injEq _ _).mp h1.symm
  have hlkset : alistLookup (alistSet cache key pk) key = some pk :=
    alistLookup_set_self cache key pk
  refine ⟨rfl, rfl, ?_, ?_⟩ <;>
    simp only [invoke, CacheLock.make, run_static, hpre, htypes, hgp,
      Bool.false_eq_true, if_false, static_lookup_and_call,
      PreparedKernel.get_key, hpkkey, hkey, hlkset]

/-- Witness for C10: a fresh lock is unlocked and the first static call
on the empty cache compiles once and inserts under `"123"`. -/
theorem claim_C10_witness :
    (CacheLock.make "global").is_locked = false ∧
    (CacheLock.lock (CacheLock.make "global")).is_locked = true ∧
    (invoke cfgAB (some (CacheLock.make "global")) genv0 []
        kwA1B23).compiles = 1 ∧
    alistLookup (invoke cfgAB (some (CacheLock.make "global")) genv0 []
        kwA1B23).cache "123" = some pkFix :=
  claim_C10 "global" cfgAB genv0 [] kwA1B23 pkFix "123" (by decide)
    (by decide) (by decide) (by decide) (by decide)

/-- Call with the well-typed selector value `A = 1` (int). -/
def kwGoodA : Kwargs :=
  [("A", .int 1), ("x", .int 5), ("grid", .gridTuple [8])]

/-- Call with the ill-typed selector value `A = "1"` (a string), whose
string form coincides with that of the int `1`. -/
def kwBadA : Kwargs :=
  [("A", .str "1"), ("x", .int 7), ("grid", .gridTuple [8])]

/-- The launch that `kwBadA` receives from the variant cached under
`"1"`. -/
def lrBad : LaunchResult :=
  ⟨8, 1, 1, 2, 7, 3, 11, none, none, [.int 7]⟩

/-- Counterexample to claim C4 as stated: in dynamic mode, after `A = 1`
(int) warmed the key `"1"`, a call with the ill-typed selector value
`A = "1"` (a string, `str("1") = "1"`) hits the cache and is invoked
successfully — no fatal error, no type check.  The locked static path
likewise skips the type check; the check only guards the compiling
paths. -/
theorem claim_C4_counterexample :
    isSupportedType (Val.str "1") = false ∧
    "A" ∈ cfgA.check_keys ∧
    alistLookup kwBadA "A" = some (Val.str "1") ∧
    run_dynamic cfgA genv0 (run_dynamic cfgA genv0 [] kwGoodA).cache
        kwBadA =
      ⟨.ok lrBad, (run_dynamic cfgA genv0 [] kwGoodA).cache, 0,
        false⟩ := by
  decide

/-- Claim C4 (amended): in every call path that attempts a compilation —
static mode while unlocked, and dynamic mode on a cache miss — a
selector-key value that is not an int, bool, or float makes the call
fail with a fatal error before any compile is attempted: no compilation
occurs and the cache is left unchanged.  (Paths served from the cache —
a dynamic-mode hit, or locked static mode — perform no type check.) -/
theorem claim_C4 (cfg : JitCacheCfg) (genv : GridEnv) (cache : Cache)
    (kwargs : Kwargs) (k : String) (v : Val)
    (hk : k ∈ cfg.check_keys) (hv : alistLookup kwargs k = some v)
    (hbad : isSupportedType v = false)
    (hpre : pre_hook_check kwargs = .ok ()) :
    ((run_static cfg genv false cache kwargs).compiles = 0 ∧
      (run_static cfg genv false cache kwargs).cache = cache ∧
      ∃ e, (run_static cfg genv false cache kwargs).result = .error e) ∧
    (∀ key, cache_index_func cfg.check_keys kwargs = .ok key →
        alistLookup cache key = none →
        (run_dynamic cfg genv cache kwargs).compiles = 0 ∧
        (run_dynamic cfg genv cache kwargs).cache = cache ∧
        ∃ e, (run_dynamic cfg genv cache kwargs).result = .error e) := by
  obtain ⟨e, he⟩ :=
    check_key_types_error_of_bad cfg.check_keys kwargs k v hk hv hbad
  constructor
  · refine ⟨?_, ?_, e, ?_⟩ <;> simp [run_static, hpre, he]
  · intro key hkey hnone
    refine ⟨?_, ?_, e, ?_⟩ <;> simp [run_dynamic, hpre, hkey, hnone, he]

/-- Witness for C4 (amended): the ill-typed call `A = "1"` fails in both
compiling paths on the empty cache. -/
theorem claim_C4_witness :
    ((run_static cfgA genv0 false [] kwBadA).compiles = 0 ∧
      (run_static cfgA genv0 false [] kwBadA).cache = [] ∧
      ∃ e, (run_static cfgA genv0 false [] kwBadA).result = .error e) ∧
    ((run_dynamic cfgA genv0 [] kwBadA).compiles = 0 ∧
      (run_dynamic cfgA genv0 [] kwBadA).cache = [] ∧
      ∃ e, (run_dynamic cfgA genv0 [] kwBadA).result = .error e) :=
  ⟨(claim_C4 cfgA genv0 [] kwBadA "A" (Val.str "1") (by decide)
      (by decide) (by decide) (by decide)).1,
    (claim_C4 cfgA genv0 [] kwBadA "A" (Val.str "1") (by decide)
      (by decide) (by decide) (by decide)).2 "1" (by decide) (by decide)⟩

/-- The configuration-error message of `_get_prepared_kernel`. -/
def check_keys_config_error : PyErr :=
  .runtimeError "check_keys must only contain parameters marked as tl.constexpr (non-constants will be updated in all cases)."

/-- Claim C5: whenever a selector key coincides with a non-constant
(runtime) parameter name of the kernel, the prepare step raises the
fatal configuration error; the `PreparedInvocation` is never constructed
(prepare returns the error, so no launch can be reached through it). -/
theorem claim_C5 (cfg : JitCacheCfg) (genv : GridEnv) (kwargs : Kwargs)
    (x : String) (hx : x ∈ non_const_arg_names cfg.params)
    (hck : x ∈ cfg.check_keys) :
    get_prepared_kernel cfg genv kwargs = .error check_keys_config_error := by
  have hany : (non_const_arg_names cfg.params).any
      (fun y => strMem y cfg.check_keys) = true :=
    List.any_eq_true.mpr
      ⟨x, hx, (strMem_eq_true_iff_mem x cfg.check_keys).mpr hck⟩
  simp only [get_prepared_kernel, hany, if_true]
  rfl

/-- Engine whose selector key `y` names a non-constant parameter. -/
def cfgBad : JitCacheCfg := { cfgAB with
  params := [⟨"y", false, false⟩, ⟨"x", false, false⟩]
  check_keys := ["y"]
}

/-- Witness for C5: preparing under `cfgBad` fails with the
configuration error for any call. -/
theorem claim_C5_witness :
    get_prepared_kernel cfgBad genv0
      [("y", .int 1), ("x", .int 5), ("grid", .gridTuple [8])] =
      .error check_keys_config_error :=
  claim_C5 cfgBad genv0
    [("y", .int 1), ("x", .int 5), ("grid", .gridTuple [8])] "y"
    (by decide) (by decide)

/-- A compiled kernel whose shared-memory footprint (100) exceeds the
device capacity used below (50). -/
def kernBig : CompiledKernel := ⟨"kern", 100, 7, 3⟩

/-- Claim C6 records a code bug: when the kernel's required shared
memory exceeds the device's maximum, `_init_handles` attempts to raise
`OutOfResources(self.metadata.shared, ...)`, but `PreparedKernel` has no
`metadata` attribute (the field is `self.kernel.metadata`), so the call
actually fails with `AttributeError("metadata")` — a fatal error is
raised and no executable handle is loaded, but it is not the documented
"OutOfResources" error reporting requested vs. available. -/
theorem claim_C6 :
    PreparedKernel.make (Val.gridTuple [8]) [8] false kernBig 11 none
        none ["x"] "1" 0 2 50 =
      .error (.attributeError "metadata") ∧
    (PyErr.attributeError "metadata" ≠
      PyErr.outOfResources 100 50 "shared memory") := by
  decide

/-- Whether a fallible step succeeded. -/
def exceptIsOk {ε α : Type} : Except ε α → Bool
  | .ok _ => true
  | .error _ => false

theorem call_with_cached_grid (pk : PreparedKernel) (genv : GridEnv)
    (kwargs : Kwargs) (g0 g1 g2 : Int)
    (hclg : pk.cache_launch_grid = true)
    (hcg : pk.concrete_grid = some (g0, g1, g2)) :
    pk.call genv kwargs =
      match getVals pk.non_const_arg_names kwargs with
      | .error e => .error e
      | .ok vals => .ok ⟨g0, g1, g2, pk.stream, pk.function,
          pk.kernel.packed_metadata, pk.launch_metadata,
          pk.launch_enter_hook, pk.launch_exit_hook, vals⟩ := by
  unfold PreparedKernel.call
  cases getVals pk.non_const_arg_names kwargs with
  | error e => rfl
  | ok vals => simp [hclg, hcg]

/-- Claim C8: with `cache_launch_grid = true` the grid is resolved to
three concrete integers at construction time (missing dimensions
defaulting to 1) and memoized in `concrete_grid`; every call of such a
PreparedInvocation launches with exactly the memoized dimensions, for
arbitrary call-time kwargs and grid-resolver behaviour. -/
theorem claim_C8 (grid_obj : Val) (g0 : Int) (rest : List Int)
    (kernel : CompiledKernel) (lm : Nat) (eh xh : Option Nat)
    (ncn : List String) (key : String) (device stream dms : Nat)
    (hsh : ¬ kernel.shared > dms) :
    (∀ pk, PreparedKernel.make grid_obj (g0 :: rest) true kernel lm eh
        xh ncn key device stream dms = .ok pk →
      pk.cache_launch_grid = true ∧
      pk.concrete_grid =
        some (g0, rest.headD 1, (rest.drop 1).headD 1)) ∧
    exceptIsOk (PreparedKernel.make grid_obj (g0 :: rest) true kernel lm
      eh xh ncn key device stream dms) = true ∧
    (∀ (pk : PreparedKernel) (g0' g1' g2' : Int) (genv : GridEnv)
        (kwargs : Kwargs) (lr : LaunchResult),
      pk.cache_launch_grid = true →
      pk.concrete_grid = some (g0', g1', g2') →
      pk.call genv kwargs = .ok lr →
      lr.grid0 = g0' ∧ lr.grid1 = g1' ∧ lr.grid2 = g2') := by
  refine ⟨?_, ?_, ?_⟩
  · intro pk h
    match rest with
    | [] =>
      simp only [PreparedKernel.make, hsh, if_false] at h
      cases h
      exact ⟨rfl, rfl⟩
    | [g1] =>
      simp only [PreparedKernel.make, hsh, if_false] at h
      cases h
      exact ⟨rfl, rfl⟩
    | g1 :: g2 :: r =>
      simp only [PreparedKernel.make, hsh, if_false] at h
      cases h
      exact ⟨rfl, rfl⟩
  · match rest with
    | [] => simp only [PreparedKernel.make, hsh, if_false]; rfl
    | [g1] => simp only [PreparedKernel.make, hsh, if_false]; rfl
    | g1 :: g2 :: r => simp only [PreparedKernel.make, hsh, if_false]; rfl
  · intro pk g0' g1' g2' genv kwargs lr hclg hcg hcall
    rw [call_with_cached_grid pk genv kwargs g0' g1' g2' hclg hcg]
      at hcall
    cases hv : getVals pk.non_const_arg_names kwargs with
    | error e => rw [hv] at hcall; cases hcall
    | ok vals =>
      rw [hv] at hcall
      cases hcall
      exact ⟨rfl, rfl, rfl⟩

/-- The PreparedInvocation built with a memoized `(128, 1, 1)` grid from
a callable grid object. -/
def pkStatic : PreparedKernel := {
  grid_obj := .gridFn 0
  grid_is_callable := true
  grid_size := 1
  cache_launch_grid := true
  concrete_grid := some (128, 1, 1)
  kernel := kern0
  launch_metadata := 11
  launch_enter_hook := none
  launch_exit_hook := none
  non_const_arg_names := ["x"]
  device := 0
  stream := 2
  dev_max_shared := 100
  module := 7
  function := 7
  n_regs := 0
  n_spills := 0
  cache_key := "1"
}

/-- A resolver environment under which the caller's grid object would
resolve to `(64, 64)` rather than the memoized `(128, 1, 1)`. -/
def genvAlt : GridEnv := fun _ _ => [64, 64]

/-- Witness for C8: construction at grid `[128]` memoizes `(128, 1, 1)`,
and a later call launches with `(128, 1, 1)` even though the call-time
grid object would now resolve to `(64, 64)`. -/
theorem claim_C8_witness :
    (pkStatic.cache_launch_grid = true ∧
      pkStatic.concrete_grid = some (128, 1, 1)) ∧
    pkStatic.call genvAlt [("x", .int 7), ("grid", .gridFn 0)] =
      .ok ⟨128, 1, 1, 2, 7, 3, 11, none, none, [.int 7]⟩ ∧
    genvAlt 0 [("x", .int 7), ("grid", .gridFn 0)] = [64, 64] :=
  ⟨(claim_C8 (Val.gridFn 0) 128 [] kern0 11 none none ["x"] "1" 0 2 100
      (by decide)).1 pkStatic (by decide),
    by decide, rfl⟩

end TritonJitCache
